import Mathlib

/-!
Shallow embedding of the query-routing and analysis core of the pharmacy-qa
repository (`src/query_engine.py`, class `EnhancedQueryEngine`), together with
the sample dataset produced by `src/data_manager.py`
(`EnhancedDataManager.create_expanded_sample_data`).

Conventions of the embedding:
* pandas dataframes become Lean lists of records in table order;
* Python floats on the pricing path become `ℚ` (only ring operations and
  comparisons occur, so the ordering facts proved here are representation
  independent);
* a missing CSV cell (pandas `NaN` for an absent optional column value)
  becomes `Option.none`;
* Python exceptions become the `Except.error` branch of `Except String _`;
  the payload strings are model-level descriptions of the raised exception;
* the Python decimal rendering (`:.2f`, `:.1f`) is abstracted by `fmtQ`; no
  property below depends on digit formatting;
* `question.lower()` / `name.str.lower()` become `strLower`, and
  the Python substring test `pat in hay` becomes `strContainsSub hay pat`.
-/

namespace PharmacyQA

/-- One row of `medications_df`.  Columns not read by the query engine
(manufacturer, ndc_code, quantity_limit, active, therapeutic_class,
controlled_substance_schedule) are omitted.  `genericEquivalent = none`
models a `NaN` cell in the optional `generic_equivalent` column. -/
structure Medication where
  id : String
  name : String
  category : String
  basePrice : ℚ
  requiresPriorAuth : Bool
  genericEquivalent : Option String
deriving Repr, DecidableEq

/-- One row of `price_rules_df` (columns read by the query engine;
effective/expiration dates and tier are never read there). -/
structure PriceRule where
  medicationId : String
  insuranceType : String
  discountPercentage : ℚ
  minCopay : ℚ
  maxCopay : ℚ
  coverageStatus : String
deriving Repr, DecidableEq

/-- One row of `policies_df`.  The three list-valued columns hold the raw
JSON-encoded strings exactly as stored in the CSV; the engine decodes them
with `json.loads` at query time. -/
structure Policy where
  name : String
  description : String
  requiredDocumentation : String
  applicableDrugs : String
  overrideConditions : String
deriving Repr, DecidableEq

/-- The three loaded tables of a `DataAnalyzer`. -/
structure Dataset where
  medications : List Medication
  priceRules : List PriceRule
  policies : List Policy
deriving Repr, DecidableEq

/-- Containment `isInfixOfL small big`: some contiguous run of `big` equals `small`. -/
def isInfixOfL (small big : List Char) : Bool :=
  match big with
  | [] => decide (small = [])
  | _ :: bs => small.isPrefixOf big || isInfixOfL small bs

/-- Model of the Python substring containment `pat in hay`. -/
def strContainsSub (hay pat : String) : Bool :=
  isInfixOfL pat.toList hay.toList

/-- Model of the Python `str.lower()` (and pandas `.str.lower()`): character-wise
lowering.  The library function `String.toLower` computes the same string but by
well-founded recursion; this structural version also evaluates inside the
kernel. -/
def strLower (s : String) : String := String.mk (s.toList.map Char.toLower)

/-- Decimal rendering of Python format specifiers (`:.2f` and friends) is
abstracted to the stock rendering of `ℚ`; no claim depends on digits. -/
def fmtQ (q : ℚ) : String := toString q

/-- Lookup `medications_df[name matching case-insensitively]` followed by
`.iloc[0]`: the first row (table order) whose name matches case-insensitively,
`none` when the filtered frame is empty (query_engine.py lines 52-58). -/
def medLookup (ds : Dataset) (medicationName : String) : Option Medication :=
  ds.medications.find? (fun m => strLower m.name == strLower medicationName)

/-- Filter `price_rules_df[medication_id == med.id]` (query_engine.py lines 59-61). -/
def priceRulesFor (ds : Dataset) (medId : String) : List PriceRule :=
  ds.priceRules.filter (fun r => r.medicationId == medId)

/-- Lines 68-69: `final_price = base * (1 - discount/100)` then
`final_price = max(min(final_price, max_copay), min_copay)`. -/
def finalPrice (basePrice : ℚ) (r : PriceRule) : ℚ :=
  max (min (basePrice * (1 - r.discountPercentage / 100)) r.maxCopay) r.minCopay

/-- The data of one `- {insurance}: ${final} (Discount: {d}%, Status: {s})`
line of the price analysis (line 70-71). -/
structure PriceLine where
  insuranceType : String
  finalPrice : ℚ
  discountPercentage : ℚ
  coverageStatus : String
deriving Repr, DecidableEq

/-- Outcome of `_analyze_price`: either the not-found early return or the
structured content of the analysis text. -/
inductive PriceResult
  | notFound
  | analysis (medName : String) (basePrice : ℚ) (lines : List PriceLine)
deriving Repr, DecidableEq

/-- Embedding of `_analyze_price` (query_engine.py lines 50-73), at the level of the data
appearing in the produced text. -/
def analyzePrice (ds : Dataset) (medicationName : String) : PriceResult :=
  match medLookup ds medicationName with
  | none => .notFound
  | some med =>
    .analysis med.name med.basePrice
      ((priceRulesFor ds med.id).map (fun r =>
        { insuranceType := r.insuranceType
          finalPrice := finalPrice med.basePrice r
          discountPercentage := r.discountPercentage
          coverageStatus := r.coverageStatus }))

/-- Rendering of one insurance-coverage line (lines 70-71). -/
def renderPriceLine (pl : PriceLine) : String :=
  "- " ++ pl.insuranceType ++ ": $" ++ fmtQ pl.finalPrice ++ " (Discount: "
    ++ fmtQ pl.discountPercentage ++ "%, Status: " ++ pl.coverageStatus ++ ")\n"

/-- The full return value of `_analyze_price` (lines 56, 63-73). -/
def renderPrice : PriceResult → String
  | .notFound => "Medication not found."
  | .analysis medName basePrice lines =>
    "Price Analysis for " ++ medName ++ ":\n" ++ "Base Price: $" ++ fmtQ basePrice
      ++ "\n" ++ "\nInsurance Coverage:\n" ++ String.join (lines.map renderPriceLine)

/-- Filter of the price rules by case-insensitive insurance_type equality
(query_engine.py lines 77-79). -/
def coverageRules (ds : Dataset) (insuranceType : String) : List PriceRule :=
  ds.priceRules.filter (fun r => strLower r.insuranceType == strLower insuranceType)

/-- Embedding of `value_counts` on the coverage_status column (line 87): one `(status, count)`
pair per distinct status of the filtered rules.  pandas orders the pairs by
descending count; this embedding keeps first-occurrence order, a choice no
property below observes (they only use membership). -/
def statusCounts (statuses : List String) : List (String × Nat) :=
  statuses.dedup.map (fun s => (s, statuses.count s))

/-- Embedding of pandas `mean` on the discount_percentage column (line 93). -/
def qMean (l : List ℚ) : ℚ := l.sum / l.length

/-- Embedding of `_analyze_coverage` (query_engine.py lines 75-101). -/
def analyzeCoverage (ds : Dataset) (insuranceType : String) : String :=
  let rules := coverageRules ds insuranceType
  if rules.isEmpty then
    "No coverage information found for " ++ insuranceType ++ "."
  else
    "Coverage Analysis for " ++ insuranceType ++ ":\n\n"
      ++ "Coverage Status Breakdown:\n"
      ++ String.join ((statusCounts (rules.map (fun r => r.coverageStatus))).map
          (fun sc => "- " ++ sc.1 ++ ": " ++ toString sc.2 ++ " medications\n"))
      ++ "\nAverage Discount: " ++ fmtQ (qMean (rules.map (fun r => r.discountPercentage)))
      ++ "%\n"
      ++ "Copay Ranges:\n"
      ++ "- Minimum: $" ++ ((rules.map (fun r => r.minCopay)).min?.elim "" fmtQ) ++ "\n"
      ++ "- Maximum: $" ++ ((rules.map (fun r => r.maxCopay)).max?.elim "" fmtQ) ++ "\n"

/-- Embedding of `_find_generic_alternatives` (query_engine.py lines 103-130).
`query_engine.py` imports only `ollama`, `json`, `typing.List` and
`DataAnalyzer` — pandas is never imported there — so evaluating `pd.isna`
at line 116 raises `NameError` whenever control reaches it, i.e. for every
found medication whose category is not `"Generic"`; lines 117-130 of the
source are unreachable.  The `Except.error` branch models that exception. -/
def findGenericAlternatives (ds : Dataset) (medicationName : String) :
    Except String String :=
  match medLookup ds medicationName with
  | none => .ok "Medication not found."
  | some med =>
    if med.category == "Generic" then
      .ok (med.name ++ " is already a generic medication.")
    else
      .error "NameError: pd is not defined"

/-- The analyzers only read the dataframes; explicit state passing makes that
visible: a call returns the dataset it was given, unchanged, next to its
result. -/
def findGenericAlternativesS (ds : Dataset) (medicationName : String) :
    Dataset × Except String String :=
  (ds, findGenericAlternatives ds medicationName)

/-- Drop leading spaces (whitespace accepted by `json.loads` between the
tokens of the stored one-line arrays). -/
def dropSpaces : List Char → List Char
  | [] => []
  | c :: cs => if c = ' ' then dropSpaces cs else c :: cs

/-- Consume characters up to the closing quote of a JSON string literal,
returning the body and the rest; `none` when the quote never closes.  The
stored data contains no escape sequences, so none are modelled. -/
def takeStringBody : List Char → Option (List Char × List Char)
  | [] => none
  | c :: cs =>
    if c = '"' then some ([], cs)
    else (takeStringBody cs).map (fun p => (c :: p.1, p.2))

/-- Elements of a JSON array of string literals, after the opening bracket:
fuel-indexed recursion (the fuel given by callers exceeds the input length). -/
def parseElemsAux : Nat → List Char → List String → Option (List String)
  | 0, _, _ => none
  | fuel + 1, cs, acc =>
    match dropSpaces cs with
    | '"' :: rest =>
      match takeStringBody rest with
      | none => none
      | some (body, rest2) =>
        match dropSpaces rest2 with
        | ',' :: rest3 => parseElemsAux fuel rest3 (acc ++ [String.mk body])
        | ']' :: rest4 =>
          if (dropSpaces rest4).isEmpty then some (acc ++ [String.mk body]) else none
        | _ => none
    | _ => none

/-- Model of `json.loads` as used on the list-valued policy columns: the stored values
are JSON arrays of string literals (`json.dumps` of a list of str in
`data_manager.py`), and anything else — e.g. a `NaN` cell read back from the
CSV — raises, modelled by `none`. -/
def parseStrList (s : String) : Option (List String) :=
  match dropSpaces s.toList with
  | '[' :: rest =>
    match dropSpaces rest with
    | ']' :: rest2 => if (dropSpaces rest2).isEmpty then some [] else none
    | _ => parseElemsAux (rest.length + 1) rest []
  | _ => none

/-- Lines 142-146: `policies_df[applicable_drugs.apply(lambda x: id in
json.loads(x))]`.  pandas evaluates the lambda on every row in table order;
the first row whose cell fails to decode raises out of the whole filter. -/
def filterPolicies (policies : List Policy) (medId : String) :
    Except String (List Policy) :=
  match policies with
  | [] => .ok []
  | p :: ps =>
    match parseStrList p.applicableDrugs with
    | none => .error ("JSONDecodeError in applicable_drugs: " ++ p.applicableDrugs)
    | some drugs =>
      match filterPolicies ps medId with
      | .error e => .error e
      | .ok rest => .ok (if medId ∈ drugs then p :: rest else rest)

/-- Lines 160-169: the per-policy block of the authorization report;
decoding either list column can raise. -/
def renderPolicy (p : Policy) : Except String String :=
  match parseStrList p.requiredDocumentation with
  | none => .error ("JSONDecodeError in required_documentation: " ++ p.requiredDocumentation)
  | some docs =>
    match parseStrList p.overrideConditions with
    | none => .error ("JSONDecodeError in override_conditions: " ++ p.overrideConditions)
    | some conds =>
      .ok ("Policy: " ++ p.name ++ "\n"
        ++ "Description: " ++ p.description ++ "\n"
        ++ "Required Documentation:\n"
        ++ String.join (docs.map (fun d => "- " ++ d ++ "\n"))
        ++ "\nOverride Conditions:\n"
        ++ String.join (conds.map (fun c => "- " ++ c ++ "\n"))
        ++ "\n")

/-- The loop of lines 160-169 over the matching policies. -/
def renderPolicies : List Policy → Except String String
  | [] => .ok ""
  | p :: ps =>
    match renderPolicy p with
    | .error e => .error e
    | .ok s =>
      match renderPolicies ps with
      | .error e => .error e
      | .ok rest => .ok (s ++ rest)

/-- Embedding of `_check_authorization_requirements` (query_engine.py lines 132-171).
Note the order taken from the source: the policy join of lines 142-146 runs
before the `requires_prior_auth` test of line 150. -/
def checkAuthorizationRequirements (ds : Dataset) (medicationName : String) :
    Except String String :=
  match medLookup ds medicationName with
  | none => .ok "Medication not found."
  | some med =>
    match filterPolicies ds.policies med.id with
    | .error e => .error e
    | .ok policies =>
      let analysis := "Authorization Requirements for " ++ med.name ++ ":\n\n"
      if !med.requiresPriorAuth then
        .ok (analysis ++ "This medication does not require prior authorization.\n")
      else
        let analysis := analysis ++ "Prior Authorization Required\n\n"
        if policies.isEmpty then
          .ok (analysis ++ "No specific policy requirements found.")
        else
          match renderPolicies policies with
          | .error e => .error e
          | .ok s => .ok (analysis ++ s)

/-- Step 1 of `get_response` (lines 180-183): when the lowered question
contains `"price"` or `"cost"`, the first medication (table order) whose
lowered name occurs in the lowered question; `none` when the keyword is
absent or no name matches (the loop then falls through to the next step). -/
def routePrice (ds : Dataset) (lq : String) : Option Medication :=
  if strContainsSub lq "price" || strContainsSub lq "cost" then
    ds.medications.find? (fun m => strContainsSub lq (strLower m.name))
  else none

/-- Step 2 (lines 186-189): the first of the three insurance literals whose
lowered form occurs in the lowered question. -/
def routeCoverage (lq : String) : Option String :=
  if strContainsSub lq "coverage" || strContainsSub lq "insurance" then
    ["Commercial", "Medicare", "Medicaid"].find? (fun i => strContainsSub lq (strLower i))
  else none

/-- Step 3 (lines 192-195). -/
def routeGeneric (ds : Dataset) (lq : String) : Option Medication :=
  if strContainsSub lq "generic" then
    ds.medications.find? (fun m => strContainsSub lq (strLower m.name))
  else none

/-- Step 4 (lines 198-201). -/
def routeAuthorization (ds : Dataset) (lq : String) : Option Medication :=
  if strContainsSub lq "authorization" || strContainsSub lq "requirements" then
    ds.medications.find? (fun m => strContainsSub lq (strLower m.name))
  else none

/-- The prompt of lines 204-213 built around the stored context and the raw
question (the surrounding literal whitespace of the Python f-string is kept
only in abbreviated form; nothing below observes it). -/
def mkPrompt (ctx question : String) : String :=
  "Context:\n" ++ ctx ++ "\n\nQuestion: " ++ question
    ++ "\n\nPlease provide a detailed answer based on the data provided.\n"
    ++ "Include relevant statistics and comparisons when applicable.\n"
    ++ "If the question cannot be answered with the available data, please say so.\n"

/-- The body of the `try:` block of `get_response` (lines 175-220).  The
external `ollama.chat` call is an oracle parameter `llm`; its failure modes
(and the exceptions of the analyzers) are the `Except.error` branch. -/
def getResponseBody (ds : Dataset) (ctx : String)
    (llm : String → Except String String) (question : String) :
    Except String String :=
  let lq := strLower question
  match routePrice ds lq with
  | some med => .ok (renderPrice (analyzePrice ds med.name))
  | none =>
    match routeCoverage lq with
    | some insurance => .ok (analyzeCoverage ds insurance)
    | none =>
      match routeGeneric ds lq with
      | some med => findGenericAlternatives ds med.name
      | none =>
        match routeAuthorization ds lq with
        | some med => checkAuthorizationRequirements ds med.name
        | none => llm (mkPrompt ctx question)

/-- Embedding of `get_response` (lines 173-223): the try/except wrapper that turns
any exception `e` into the generic error string. -/
def getResponse (ds : Dataset) (ctx : String)
    (llm : String → Except String String) (question : String) : String :=
  match getResponseBody ds ctx llm question with
  | .ok s => s
  | .error e => "Error generating response: " ++ e

/-- Lines 231-236 of `suggest_related_questions`. -/
def priceSuggestions (lq : String) : List String :=
  if strContainsSub lq "price" || strContainsSub lq "cost" then
    ["What are the cheapest medications in this category?",
     "How does this price compare to similar medications?",
     "Are there any generic alternatives available?"]
  else []

/-- Lines 238-243. -/
def coverageSuggestions (lq : String) : List String :=
  if strContainsSub lq "coverage" || strContainsSub lq "insurance" then
    ["What are the coverage requirements?",
     "Which insurance type offers the best coverage?",
     "Are prior authorizations required?"]
  else []

/-- Lines 245-250. -/
def genericSuggestions (lq : String) : List String :=
  if strContainsSub lq "generic" then
    ["What is the price difference between brand and generic?",
     "Are there any coverage restrictions for generics?",
     "Which medications have generic alternatives?"]
  else []

/-- Lines 252-257. -/
def authorizationSuggestions (lq : String) : List String :=
  if strContainsSub lq "authorization" || strContainsSub lq "requirements" then
    ["What documentation is needed?",
     "Are there any override conditions?",
     "How long does authorization typically last?"]
  else []

/-- Embedding of `suggest_related_questions` (query_engine.py lines 225-259): the four
`extend` blocks in source order followed by `[:3]`. -/
def suggestRelatedQuestions (currentQuestion : String) : List String :=
  let lq := strLower currentQuestion
  (priceSuggestions lq ++ coverageSuggestions lq ++ genericSuggestions lq
    ++ authorizationSuggestions lq).take 3

/-! ### The sample dataset of `EnhancedDataManager.create_expanded_sample_data` -/

/-- Table `medications.csv` of `data_manager.py` lines 20-38 (embedded columns). -/
def sampleMedications : List Medication :=
  [{ id := "MED001", name := "Lisinopril", category := "Generic",
     basePrice := 15.99, requiresPriorAuth := false, genericEquivalent := none },
   { id := "MED002", name := "Metformin", category := "Generic",
     basePrice := 12.99, requiresPriorAuth := false, genericEquivalent := none },
   { id := "MED003", name := "Amlodipine", category := "Generic",
     basePrice := 18.99, requiresPriorAuth := false, genericEquivalent := none },
   { id := "MED004", name := "Lipitor", category := "Brand",
     basePrice := 145.99, requiresPriorAuth := true, genericEquivalent := some "MED005" },
   { id := "MED005", name := "Atorvastatin", category := "Generic",
     basePrice := 25.99, requiresPriorAuth := false, genericEquivalent := none },
   { id := "MED006", name := "Januvia", category := "Brand",
     basePrice := 425.99, requiresPriorAuth := true, genericEquivalent := none },
   { id := "MED007", name := "Humira", category := "Specialty",
     basePrice := 5250.99, requiresPriorAuth := true, genericEquivalent := none },
   { id := "MED008", name := "Enbrel", category := "Specialty",
     basePrice := 4890.99, requiresPriorAuth := true, genericEquivalent := none },
   { id := "MED009", name := "Adderall XR", category := "Controlled",
     basePrice := 225.99, requiresPriorAuth := true, genericEquivalent := none },
   { id := "MED010", name := "Xanax", category := "Controlled",
     basePrice := 125.99, requiresPriorAuth := true, genericEquivalent := none }]

/-- Table `price_rules.csv` of `data_manager.py` lines 41-54 (embedded columns). -/
def samplePriceRules : List PriceRule :=
  [{ medicationId := "MED001", insuranceType := "Commercial", discountPercentage := 80,
     minCopay := 5, maxCopay := 25, coverageStatus := "Covered" },
   { medicationId := "MED004", insuranceType := "Commercial", discountPercentage := 70,
     minCopay := 30, maxCopay := 75, coverageStatus := "Prior Authorization Required" },
   { medicationId := "MED007", insuranceType := "Commercial", discountPercentage := 60,
     minCopay := 100, maxCopay := 500, coverageStatus := "Prior Authorization Required" },
   { medicationId := "MED001", insuranceType := "Medicare", discountPercentage := 85,
     minCopay := 3, maxCopay := 20, coverageStatus := "Covered" },
   { medicationId := "MED004", insuranceType := "Medicare", discountPercentage := 75,
     minCopay := 25, maxCopay := 65, coverageStatus := "Step Therapy Required" },
   { medicationId := "MED001", insuranceType := "Medicaid", discountPercentage := 90,
     minCopay := 1, maxCopay := 15, coverageStatus := "Covered" },
   { medicationId := "MED007", insuranceType := "Medicaid", discountPercentage := 95,
     minCopay := 3, maxCopay := 25, coverageStatus := "Prior Authorization Required" }]

/-- Table `policies.csv` of `data_manager.py` lines 57-91 (embedded columns; the
list columns hold the `json.dumps` output stored in the CSV). -/
def samplePolicies : List Policy :=
  [{ name := "Generic First Policy",
     description := "Requires trial of generic alternatives before brand name drugs",
     requiredDocumentation := "[\"Previous generic trial\", \"Adverse reaction documentation\"]",
     applicableDrugs := "[\"MED004\", \"MED006\"]",
     overrideConditions := "[\"Documented allergy to generic\", \"Treatment failure with generic\"]" },
   { name := "Specialty Authorization Policy",
     description := "Requirements for specialty medication coverage",
     requiredDocumentation := "[\"Diagnosis confirmation\", \"Lab results\", \"Specialist consultation\"]",
     applicableDrugs := "[\"MED007\", \"MED008\"]",
     overrideConditions := "[\"Urgent need\", \"Continuing therapy\"]" },
   { name := "Controlled Substance Policy",
     description := "Guidelines for controlled substance prescriptions",
     requiredDocumentation := "[\"Diagnosis\", \"Drug screening\", \"Treatment plan\"]",
     applicableDrugs := "[\"MED009\", \"MED010\"]",
     overrideConditions := "[\"Palliative care\", \"Cancer treatment\"]" }]

/-- The dataset a fresh `DataAnalyzer.load_data()` yields. -/
def sampleDataset : Dataset :=
  { medications := sampleMedications
    priceRules := samplePriceRules
    policies := samplePolicies }

/-- A language-model oracle that fails, exercising the exception path of the
external call. -/
def llmUnavailable : String → Except String String :=
  fun _ => .error "llm unavailable"

/-- A medication that needs no prior authorization. -/
def placebil : Medication :=
  { id := "MEDX", name := "Placebil", category := "Generic",
    basePrice := 10, requiresPriorAuth := false, genericEquivalent := none }

/-- A policy whose applicable_drugs references MEDX. -/
def everythingPolicy : Policy :=
  { name := "Everything Policy", description := "Applies to all drugs",
    requiredDocumentation := "[\"Form A\"]",
    applicableDrugs := "[\"MEDX\"]",
    overrideConditions := "[\"None\"]" }

/-- A dataset whose single medication needs no prior authorization while the
single policy has an applicable_drugs entry referencing its id. -/
def noAuthDataset : Dataset :=
  { medications := [placebil], priceRules := [], policies := [everythingPolicy] }

/-- A medication that needs no prior authorization. -/
def benignex : Medication :=
  { id := "MEDY", name := "Benignex", category := "Generic",
    basePrice := 12, requiresPriorAuth := false, genericEquivalent := none }

/-- A policy row whose applicable_drugs cell is not valid JSON. -/
def brokenPolicy : Policy :=
  { name := "Broken Policy", description := "Row with a malformed cell",
    requiredDocumentation := "[\"Form B\"]",
    applicableDrugs := "not json",
    overrideConditions := "[]" }

/-- A dataset whose single medication needs no prior authorization while the
single policy row holds an applicable_drugs cell that is not valid JSON. -/
def badPolicyDataset : Dataset :=
  { medications := [benignex], priceRules := [], policies := [brokenPolicy] }

/-! ### Claims -/

/-- Claim C1: for every medication the Price Analyzer resolves and every
price rule referencing it, the analysis reports
`final = max (min (base * (1 - discount/100)) max_copay) min_copay`;
whenever `min_copay ≤ max_copay` the reported final price satisfies
`min_copay ≤ final ≤ max_copay`, and whenever `min_copay > max_copay` the
reported final price equals `min_copay` regardless of the discount. -/
theorem price_clamp_spec (ds : Dataset) (medicationName : String)
    (med : Medication) (r : PriceRule)
    (hmed : medLookup ds medicationName = some med)
    (hr : r ∈ priceRulesFor ds med.id) :
    (∃ lines, analyzePrice ds medicationName = .analysis med.name med.basePrice lines ∧
      { insuranceType := r.insuranceType
        finalPrice := max (min (med.basePrice * (1 - r.discountPercentage / 100))
          r.maxCopay) r.minCopay
        discountPercentage := r.discountPercentage
        coverageStatus := r.coverageStatus : PriceLine } ∈ lines) ∧
    (r.minCopay ≤ r.maxCopay →
      r.minCopay ≤ finalPrice med.basePrice r ∧ finalPrice med.basePrice r ≤ r.maxCopay) ∧
    (r.maxCopay < r.minCopay → finalPrice med.basePrice r = r.minCopay) := by
  refine ⟨⟨(priceRulesFor ds med.id).map (fun rule =>
      { insuranceType := rule.insuranceType
        finalPrice := finalPrice med.basePrice rule
        discountPercentage := rule.discountPercentage
        coverageStatus := rule.coverageStatus }), ?_, ?_⟩, ?_, ?_⟩
  · unfold analyzePrice
    rw [hmed]
  · exact List.mem_map.mpr ⟨r, hr, rfl⟩
  · intro h
    exact ⟨le_max_right _ _, max_le (min_le_right _ _) h⟩
  · intro h
    exact max_eq_right ((min_le_right _ _).trans h.le)

/-- Witness for C1 on the sample data: Lisinopril with its Commercial rule
(base 15.99, discount 80, copays 5/25) has its reported final price between
the copays. -/
theorem price_clamp_spec_witness :
    (5 : ℚ) ≤ finalPrice (15.99 : ℚ)
      { medicationId := "MED001", insuranceType := "Commercial", discountPercentage := 80,
        minCopay := 5, maxCopay := 25, coverageStatus := "Covered" } ∧
    finalPrice (15.99 : ℚ)
      { medicationId := "MED001", insuranceType := "Commercial", discountPercentage := 80,
        minCopay := 5, maxCopay := 25, coverageStatus := "Covered" } ≤ 25 := by
  have h := price_clamp_spec sampleDataset "Lisinopril"
    { id := "MED001", name := "Lisinopril", category := "Generic", basePrice := 15.99,
      requiresPriorAuth := false, genericEquivalent := none }
    { medicationId := "MED001", insuranceType := "Commercial", discountPercentage := 80,
      minCopay := 5, maxCopay := 25, coverageStatus := "Covered" }
    (by rfl) (by decide)
  exact h.2.1 (by decide)

/-- Claim C2 is refuted by the code: "Lipitor" resolves to a stored Brand
medication whose generic_equivalent is recorded (MED005, Atorvastatin), yet
the Generic Alternative Analyzer raises `NameError` instead of reporting the
alternative — `query_engine.py` never imports pandas, so evaluating
`pd.isna` at line 116 fails on every non-Generic medication, and lines
117-130 that would produce the claimed report are unreachable. -/
theorem generic_alternatives_nameError_on_brand :
    (medLookup sampleDataset "Lipitor").map
        (fun m => (m.category, m.genericEquivalent)) = some ("Brand", some "MED005") ∧
    findGenericAlternatives sampleDataset "Lipitor" =
      .error "NameError: pd is not defined" :=
  ⟨rfl, rfl⟩

/-- Claim C8: the Generic Alternative Analyzer is idempotent and
mutation-free — with the dataframe state passed explicitly, a call hands the
dataset back unchanged and a second call on the returned state produces the
same result as the first. -/
theorem generic_alternatives_idempotent (ds : Dataset) (medicationName : String) :
    (findGenericAlternativesS ds medicationName).1 = ds ∧
    findGenericAlternativesS (findGenericAlternativesS ds medicationName).1 medicationName
      = findGenericAlternativesS ds medicationName :=
  ⟨rfl, rfl⟩

/-- Lemma: `List.find?` returns the first satisfying element: the list splits as
`pre ++ a :: post` with the predicate false on every element of `pre`. -/
theorem find?_eq_some_split {α : Type} {p : α → Bool} {l : List α} {a : α}
    (h : l.find? p = some a) :
    ∃ pre post, l = pre ++ a :: post ∧ ∀ x ∈ pre, p x = false := by
  induction l with
  | nil => simp at h
  | cons x xs ih =>
    by_cases hx : p x
    · rw [List.find?_cons_of_pos _ hx] at h
      cases h
      exact ⟨[], xs, rfl, by simp⟩
    · have hx' : p x = false := by simpa using hx
      rw [List.find?_cons_of_neg _ hx] at h
      obtain ⟨pre, post, rfl, hall⟩ := ih h
      refine ⟨x :: pre, post, rfl, ?_⟩
      intro y hy
      rcases List.mem_cons.mp hy with rfl | hy
      · exact hx'
      · exact hall y hy

/-- Claim C3: router priority is strict with first-match-wins — whenever the
lowered question contains "price" or "cost" and some stored medication name
occurs in it (so in particular for questions that also contain "generic"),
`get_response` returns exactly the output of the Price Analyzer on the first
matching medication in table order; the Generic Alternative Analyzer is
never consulted. -/
theorem router_price_priority (ds : Dataset) (ctx : String)
    (llm : String → Except String String) (question : String) (med : Medication)
    (hkw : (strContainsSub (strLower question) "price"
        || strContainsSub (strLower question) "cost") = true)
    (hfind : ds.medications.find?
        (fun m => strContainsSub (strLower question) (strLower m.name)) = some med) :
    getResponse ds ctx llm question = renderPrice (analyzePrice ds med.name) ∧
    ∃ pre post, ds.medications = pre ++ med :: post ∧
      ∀ m ∈ pre, strContainsSub (strLower question) (strLower m.name) = false := by
  constructor
  · simp only [getResponse, getResponseBody, routePrice, hkw, if_true, hfind]
  · exact find?_eq_some_split hfind

/-- Witness for C3 on the sample data: the question "price of generic
Lipitor?" carries both the price and the generic keywords together with the
medication name Lipitor, and is answered by the Price Analyzer. -/
theorem router_price_priority_witness :
    getResponse sampleDataset "" llmUnavailable "price of generic Lipitor?"
      = renderPrice (analyzePrice sampleDataset "Lipitor") :=
  (router_price_priority sampleDataset "" llmUnavailable "price of generic Lipitor?"
    { id := "MED004", name := "Lipitor", category := "Brand", basePrice := 145.99,
      requiresPriorAuth := true, genericEquivalent := some "MED005" }
    (by rfl) (by rfl)).1

/-- Claim C4: `get_response` never raises to its caller — for every question
the result is the produced text on success, and any exception of the
routing steps, the analyzers or the external model call is converted into
the generic "Error generating response: ..." string. -/
theorem getResponse_catches_all (ds : Dataset) (ctx : String)
    (llm : String → Except String String) (question : String) :
    (∀ s, getResponseBody ds ctx llm question = .ok s →
      getResponse ds ctx llm question = s) ∧
    (∀ e, getResponseBody ds ctx llm question = .error e →
      getResponse ds ctx llm question = "Error generating response: " ++ e) := by
  constructor
  · intro s h
    unfold getResponse
    rw [h]
  · intro e h
    unfold getResponse
    rw [h]

/-- Witness for C4: a keyword-free question with a failing language-model
oracle yields the generic error string. -/
theorem getResponse_catches_all_witness :
    getResponse sampleDataset "" llmUnavailable "hello"
      = "Error generating response: llm unavailable" :=
  (getResponse_catches_all sampleDataset "" llmUnavailable "hello").2
    "llm unavailable" (by rfl)

/-- Claim C9: under router dispatch at the price/cost step the medication
name handed to the Price Analyzer is taken verbatim from the medications
table, so the case-insensitive lookup inside `_analyze_price` succeeds and
its "Medication not found." branch is unreachable. -/
theorem price_dispatch_lookup_total (ds : Dataset) (question : String)
    (med : Medication)
    (hfind : ds.medications.find?
        (fun m => strContainsSub (strLower question) (strLower m.name)) = some med) :
    (∃ m, medLookup ds med.name = some m) ∧
    analyzePrice ds med.name ≠ PriceResult.notFound := by
  have hmem : med ∈ ds.medications := List.mem_of_find?_eq_some hfind
  have hsome : (medLookup ds med.name).isSome := by
    unfold medLookup
    rw [List.find?_isSome]
    exact ⟨med, hmem, by simp⟩
  obtain ⟨m, hm⟩ := Option.isSome_iff_exists.mp hsome
  refine ⟨⟨m, hm⟩, ?_⟩
  unfold analyzePrice
  rw [hm]
  simp

/-- Witness for C9 on the sample data: "cost of Xanax" dispatches with the
table entry Xanax, and the lookup of that name in the Price Analyzer succeeds. -/
theorem price_dispatch_lookup_total_witness :
    (∃ m, medLookup sampleDataset "Xanax" = some m) ∧
    analyzePrice sampleDataset "Xanax" ≠ PriceResult.notFound :=
  price_dispatch_lookup_total sampleDataset "cost of Xanax"
    { id := "MED010", name := "Xanax", category := "Controlled", basePrice := 125.99,
      requiresPriorAuth := true, genericEquivalent := none }
    (by rfl)

/-- Claim C5: the Coverage Analyzer filters price rules by case-insensitive
equality on insurance_type; an empty filter yields exactly the not-found
text; otherwise the values the report is built from carry one count per
distinct coverage status of the filtered rules (the number of filtered rules
with that status), the mean discount percentage (sum over count), a least
element of the filtered min_copays and a greatest element of the filtered
max_copays. -/
theorem coverage_analyzer_spec (ds : Dataset) (insuranceType : String) :
    (∀ r ∈ ds.priceRules,
      (r ∈ coverageRules ds insuranceType ↔
        strLower r.insuranceType = strLower insuranceType)) ∧
    (coverageRules ds insuranceType = [] →
      analyzeCoverage ds insuranceType
        = "No coverage information found for " ++ insuranceType ++ ".") ∧
    (coverageRules ds insuranceType ≠ [] →
      (∀ s ∈ (coverageRules ds insuranceType).map (fun r => r.coverageStatus),
        (s, ((coverageRules ds insuranceType).map (fun r => r.coverageStatus)).count s)
          ∈ statusCounts ((coverageRules ds insuranceType).map (fun r => r.coverageStatus))) ∧
      qMean ((coverageRules ds insuranceType).map (fun r => r.discountPercentage))
        = ((coverageRules ds insuranceType).map (fun r => r.discountPercentage)).sum
            / ((coverageRules ds insuranceType).length : ℚ) ∧
      (∃ m, ((coverageRules ds insuranceType).map (fun r => r.minCopay)).min? = some m ∧
        (∃ r ∈ coverageRules ds insuranceType, r.minCopay = m) ∧
        ∀ r ∈ coverageRules ds insuranceType, m ≤ r.minCopay) ∧
      (∃ M, ((coverageRules ds insuranceType).map (fun r => r.maxCopay)).max? = some M ∧
        (∃ r ∈ coverageRules ds insuranceType, r.maxCopay = M) ∧
        ∀ r ∈ coverageRules ds insuranceType, r.maxCopay ≤ M)) := by
  refine ⟨?_, ?_, ?_⟩
  · intro r hr
    simp [coverageRules, List.mem_filter, hr]
  · intro h
    simp only [analyzeCoverage, h, List.isEmpty_nil, if_true]
  · intro h
    obtain ⟨r0, hr0⟩ := List.exists_mem_of_ne_nil _ h
    refine ⟨?_, by simp [qMean], ?_, ?_⟩
    · intro s hs
      exact List.mem_map.mpr ⟨s, List.mem_dedup.mpr hs, rfl⟩
    · have hs0 : r0.minCopay ∈ (coverageRules ds insuranceType).map (fun r => r.minCopay) :=
        List.mem_map.mpr ⟨r0, hr0, rfl⟩
      obtain ⟨m, hm⟩ :=
        Option.isSome_iff_exists.mp (List.isSome_min?_of_mem hs0)
      obtain ⟨r1, hr1, hr1m⟩ :=
        List.mem_map.mp (List.min?_mem (fun a b => min_choice a b) hm)
      refine ⟨m, hm, ⟨r1, hr1, hr1m⟩, ?_⟩
      intro r hr
      exact (List.le_min?_iff (fun _ _ _ => le_min_iff) hm).mp le_rfl _
        (List.mem_map.mpr ⟨r, hr, rfl⟩)
    · have hs0 : r0.maxCopay ∈ (coverageRules ds insuranceType).map (fun r => r.maxCopay) :=
        List.mem_map.mpr ⟨r0, hr0, rfl⟩
      obtain ⟨M, hM⟩ :=
        Option.isSome_iff_exists.mp (List.isSome_max?_of_mem hs0)
      obtain ⟨r1, hr1, hr1M⟩ :=
        List.mem_map.mp (List.max?_mem (fun a b => max_choice a b) hM)
      refine ⟨M, hM, ⟨r1, hr1, hr1M⟩, ?_⟩
      intro r hr
      exact (List.max?_le_iff (fun _ _ _ => max_le_iff) hM).mp le_rfl _
        (List.mem_map.mpr ⟨r, hr, rfl⟩)

/-- Witness for C5 on the sample data: the insurance type "Aetna" is absent
and produces exactly the not-found text, while "Medicare" has a non-empty
filtered set with a least min_copay. -/
theorem coverage_analyzer_spec_witness :
    analyzeCoverage sampleDataset "Aetna" = "No coverage information found for Aetna." ∧
    (∃ m, ((coverageRules sampleDataset "Medicare").map (fun r => r.minCopay)).min? = some m ∧
      (∃ r ∈ coverageRules sampleDataset "Medicare", r.minCopay = m) ∧
      ∀ r ∈ coverageRules sampleDataset "Medicare", m ≤ r.minCopay) := by
  constructor
  · exact (coverage_analyzer_spec sampleDataset "Aetna").2.1 (by rfl)
  · exact ((coverage_analyzer_spec sampleDataset "Medicare").2.2 (by decide)).2.2.1

/-- Claim C6: for every found medication with requires_prior_auth = false
the Authorization Analyzer returns exactly the single no-authorization
statement — no policy name, documentation item or override condition — for
every outcome `ps` of the policy join, including non-empty ones where
policies reference the id of the medication. -/
theorem authorization_no_auth_no_policies (ds : Dataset) (medicationName : String)
    (med : Medication) (ps : List Policy)
    (hmed : medLookup ds medicationName = some med)
    (hauth : med.requiresPriorAuth = false)
    (hps : filterPolicies ds.policies med.id = .ok ps) :
    checkAuthorizationRequirements ds medicationName
      = .ok (("Authorization Requirements for " ++ med.name ++ ":\n\n")
          ++ "This medication does not require prior authorization.\n") := by
  simp [checkAuthorizationRequirements, hmed, hps, hauth]

/-- Witness for C6: the policy join on `noAuthDataset` is non-empty (the
policy lists MEDX), yet the report is the bare no-authorization statement. -/
theorem authorization_no_auth_no_policies_witness :
    filterPolicies noAuthDataset.policies "MEDX" = .ok noAuthDataset.policies ∧
    checkAuthorizationRequirements noAuthDataset "Placebil"
      = .ok (("Authorization Requirements for " ++ "Placebil" ++ ":\n\n")
          ++ "This medication does not require prior authorization.\n") :=
  ⟨by rfl, authorization_no_auth_no_policies noAuthDataset "Placebil" placebil
    noAuthDataset.policies (by rfl) rfl (by rfl)⟩

/-- Claim C7: the Suggester concatenates the candidate lists of the matching
keyword groups in the fixed order price/cost, coverage/insurance, generic,
authorization/requirements, truncates to the first 3 entries, never returns
more than 3 items, and returns the empty sequence for a question containing
none of the trigger keywords. -/
theorem suggest_related_spec (currentQuestion : String) :
    suggestRelatedQuestions currentQuestion
      = (priceSuggestions (strLower currentQuestion)
          ++ coverageSuggestions (strLower currentQuestion)
          ++ genericSuggestions (strLower currentQuestion)
          ++ authorizationSuggestions (strLower currentQuestion)).take 3 ∧
    (suggestRelatedQuestions currentQuestion).length ≤ 3 ∧
    (strContainsSub (strLower currentQuestion) "price" = false →
      strContainsSub (strLower currentQuestion) "cost" = false →
      strContainsSub (strLower currentQuestion) "coverage" = false →
      strContainsSub (strLower currentQuestion) "insurance" = false →
      strContainsSub (strLower currentQuestion) "generic" = false →
      strContainsSub (strLower currentQuestion) "authorization" = false →
      strContainsSub (strLower currentQuestion) "requirements" = false →
      suggestRelatedQuestions currentQuestion = []) := by
  refine ⟨rfl, ?_, ?_⟩
  · exact List.length_take_le 3 _
  · intro h1 h2 h3 h4 h5 h6 h7
    simp [suggestRelatedQuestions, priceSuggestions, coverageSuggestions,
      genericSuggestions, authorizationSuggestions, h1, h2, h3, h4, h5, h6, h7]

/-- Witness for C7: "What time is it?" matches no keyword group and yields
the empty sequence. -/
theorem suggest_related_spec_witness :
    suggestRelatedQuestions "What time is it?" = [] :=
  (suggest_related_spec "What time is it?").2.2 rfl rfl rfl rfl rfl rfl rfl

/-- The policy join fails as soon as the applicable_drugs cell of one row does
not decode (pandas applies the decoding lambda to every row). -/
theorem filterPolicies_error_of_bad_row (medId : String) (policies : List Policy)
    (hbad : ∃ p ∈ policies, parseStrList p.applicableDrugs = none) :
    ∃ e, filterPolicies policies medId = .error e := by
  induction policies with
  | nil =>
    obtain ⟨p, hp, _⟩ := hbad
    exact absurd hp (List.not_mem_nil p)
  | cons q qs ih =>
    obtain ⟨p, hp, hpbad⟩ := hbad
    rcases List.mem_cons.mp hp with rfl | hp
    · exact ⟨"JSONDecodeError in applicable_drugs: " ++ p.applicableDrugs,
        by simp [filterPolicies, hpbad]⟩
    · cases hq : parseStrList q.applicableDrugs with
      | none =>
        exact ⟨"JSONDecodeError in applicable_drugs: " ++ q.applicableDrugs,
          by simp [filterPolicies, hq]⟩
      | some drugs =>
        obtain ⟨e, he⟩ := ih ⟨p, hp, hpbad⟩
        exact ⟨e, by simp [filterPolicies, hq, he]⟩

/-- Claim C10: `_check_authorization_requirements` evaluates the policy
join — decoding the applicable_drugs cell of every policy row — before testing
requires_prior_auth, so one malformed policy row makes the analyzer raise
for every found medication; `med.requiresPriorAuth` is unconstrained here,
so in particular the no-authorization-required path fails too instead of
answering. -/
theorem authorization_join_before_auth_check (ds : Dataset)
    (medicationName : String) (med : Medication) (p : Policy)
    (hmed : medLookup ds medicationName = some med)
    (hp : p ∈ ds.policies) (hbad : parseStrList p.applicableDrugs = none) :
    ∃ e, checkAuthorizationRequirements ds medicationName = .error e := by
  obtain ⟨e, he⟩ := filterPolicies_error_of_bad_row med.id ds.policies ⟨p, hp, hbad⟩
  exact ⟨e, by simp [checkAuthorizationRequirements, hmed, he]⟩

/-- Witness for C10: on `badPolicyDataset` the looked-up medication requires
no prior authorization, yet the analyzer fails because of the malformed
policy row. -/
theorem authorization_join_before_auth_check_witness :
    (medLookup badPolicyDataset "Benignex").map
        (fun m => m.requiresPriorAuth) = some false ∧
    ∃ e, checkAuthorizationRequirements badPolicyDataset "Benignex" = .error e :=
  ⟨by rfl, authorization_join_before_auth_check badPolicyDataset "Benignex"
    benignex brokenPolicy
    (by rfl) (by exact List.Mem.head _) (by rfl)⟩

end PharmacyQA
